import Mathlib

/-!
Verification of the `receipt_processor` package (goshopper repository).

The Python modules are shallowly embedded:
* Python `float` values are modelled as `ℚ` (the arithmetic the source performs
  on them — sums, products, comparisons against literal thresholds — is exact
  rational arithmetic in every claim under consideration);
* dynamic dictionaries are modelled as structures whose optional keys are
  `Option` fields (`none` = key absent);
* the external collaborators (OCR, the Gemini HTTP call, the on-disk template
  and history stores) are modelled as explicit environment/state parameters,
  matching the spec's "external interfaces" section;
* `product_normalizer` is imported by `extractor.py` but its module is not part
  of the repository sources, so the result of `ReceiptExtractor.extract_items_local`
  is supplied by the environment; the confidence attached to it is computed by
  the embedded `calculate_confidence_score`, exactly as the module-level
  convenience function `extract_items_local` does.
-/

/-- One item dictionary as it flows through the source.  Locally extracted
items (`extractor.py`) carry keys `name`/`qty`/`price`/`total`; Gemini items
(`gemini_api.py`) carry `name`/`price`/`quantity`.  `none` models an absent
key. -/
structure RawItem where
  name : Option String := none
  qty : Option ℚ := none
  price : Option ℚ := none
  total : Option ℚ := none
  quantity : Option ℚ := none
  deriving Repr, DecidableEq

/-- One extraction-result dictionary (either the local extractor's result or a
Gemini result); `none` models an absent key. -/
structure RawData where
  success : Option Bool := none
  error : Option String := none
  merchant : Option String := none
  date : Option String := none
  time : Option String := none
  items : List RawItem := []
  subtotal : Option ℚ := none
  tax : Option ℚ := none
  total : Option ℚ := none
  currency : Option String := none
  confidence : Option ℚ := none
  deriving Repr, DecidableEq

/-- `config.MIN_CONFIDENCE_THRESHOLD` — minimum confidence to skip the Gemini
fallback. -/
def MIN_CONFIDENCE_THRESHOLD : ℚ := 0.85

/-- `config.MIN_ITEMS_THRESHOLD` — minimum items required for high
confidence. -/
def MIN_ITEMS_THRESHOLD : Nat := 3

/-- The item-completeness test of `calculate_confidence_score`
(`extractor.py` line 374): `item.get("name") and item.get("price", 0) > 0`. -/
def isCompleteItem (it : RawItem) : Bool :=
  (it.name.getD "") ≠ "" && 0 < it.price.getD 0

/-- Factor 4 of `ReceiptExtractor.calculate_confidence_score`: when the item
list is non-empty, `0.2 * complete_items / len(items)`, else nothing. -/
def itemCompletenessCredit (items : List RawItem) : ℚ :=
  if items.length ≠ 0 then
    0.2 * ((items.countP isCompleteItem : ℚ) / (items.length : ℚ))
  else 0

/-- `ReceiptExtractor.calculate_confidence_score` (`extractor.py` 341–384).
The running `score` accumulates the four factors; `factors` accumulates the
four weights unconditionally; the result is `score / factors` (guarded by
`factors > 0`). -/
def calculate_confidence_score (d : RawData) : ℚ :=
  let score0 : ℚ := 0
  -- Factor 1: shop identification (`data.get("merchant") != "Unknown"`;
  -- an absent key compares unequal to "Unknown" in Python, hence `≠ some _`).
  let score1 := if d.merchant ≠ some "Unknown" then score0 + 0.3 else score0
  -- Factor 2: minimum items threshold.
  let score2 :=
    if MIN_ITEMS_THRESHOLD ≤ d.items.length then score1 + 0.3
    else if 0 < d.items.length then score1 + 0.15
    else score1
  -- Factor 3: total amount found (`data.get("total", 0) > 0`).
  let score3 := if 0 < d.total.getD 0 then score2 + 0.2 else score2
  -- Factor 4: item details completeness.
  let score4 := score3 + itemCompletenessCredit d.items
  let factors : ℚ := 0.3 + 0.3 + 0.2 + 0.2
  if 0 < factors then score4 / factors else 0

/-- A cleaned item as produced by `ReceiptProcessor._normalize_output`. -/
structure CleanItem where
  name : String
  qty : ℚ
  price : ℚ
  total : ℚ
  deriving Repr, DecidableEq

/-- Python's `\s` and the character set `str.strip()` removes (ASCII
whitespace: space, tab, newline, vertical tab, form feed, carriage
return). -/
def isPySpace (c : Char) : Bool :=
  c = ' ' || c = '\t' || c = '\n' || c = '\x0b' || c = '\x0c' || c = '\r'

/-- Python's `str.strip()`: remove leading and trailing whitespace. -/
def pyStrip (s : String) : String :=
  String.mk (((s.data.dropWhile isPySpace).reverse.dropWhile isPySpace).reverse)

/-- The per-item step of `_normalize_output` (`main.py` 176–184): default the
fields, then recalculate `total` if it is zero or differs from `qty * price`
by more than `0.01`. -/
def cleanItem (it : RawItem) : CleanItem :=
  let name := pyStrip (it.name.getD "")
  let qty := it.qty.getD 1
  let price := it.price.getD 0
  let total0 := it.total.getD 0
  let total :=
    if total0 = 0 ∨ |total0 - qty * price| > 0.01 then qty * price else total0
  ⟨name, qty, price, total⟩

/-- The retention test of `_normalize_output` (`main.py` 186):
`cleaned_item["name"] and cleaned_item["price"] > 0`. -/
def keepItem (c : CleanItem) : Bool :=
  c.name ≠ "" && 0 < c.price

/-- The normalized receipt dictionary built by `_normalize_output` (its
`"success"` key is always `True` and is represented by the `ProcessingResult.ok`
constructor below). -/
structure NormalizedReceipt where
  merchant : String
  date : Option String
  items : List CleanItem
  subtotal : Option ℚ
  tax : Option ℚ
  total : ℚ
  currency : String
  processing_method : String
  confidence : ℚ
  rawText : String
  deriving Repr, DecidableEq

/-- `ReceiptProcessor._normalize_output` (`main.py` 143–196). -/
def normalize_output (data : RawData) (method : String) (confidence : ℚ)
    (rawText : String) : NormalizedReceipt :=
  let cleaned := (data.items.map cleanItem).filter keepItem
  let total0 := data.total.getD 0
  let total :=
    if total0 = 0 ∧ cleaned ≠ [] then (cleaned.map (·.total)).sum else total0
  { merchant := data.merchant.getD "Unknown"
    date := data.date
    items := cleaned
    subtotal := data.subtotal
    tax := data.tax
    total := total
    currency := data.currency.getD "CDF"
    processing_method := method
    confidence := confidence
    rawText := rawText }

/-- Python `str.upper()` restricted to the character ranges the source's shop
rules and patterns use: ASCII letters and the Latin-1 accented letters
(`é` → `É`, …). -/
def pyToUpper (c : Char) : Char :=
  if c.isLower then c.toUpper
  else if 0xE0 ≤ c.toNat ∧ c.toNat ≤ 0xFE ∧ c.toNat ≠ 0xF7 then
    Char.ofNat (c.toNat - 0x20)
  else c

/-- Python's regex `\w` (word character) on the same character ranges:
ASCII alphanumerics, underscore, and the Latin-1 letters. -/
def isWordChar (c : Char) : Bool :=
  c.isAlphanum || c = '_' ||
    (0xC0 ≤ c.toNat && c.toNat ≤ 0xFF && c.toNat ≠ 0xD7 && c.toNat ≠ 0xF7)

/-- Whether position `i` of `t` holds a word character (out of range counts as
not a word character, as at the ends of a regex subject). -/
def charIsWordAt (t : List Char) (i : Nat) : Bool :=
  match t.get? i with
  | some c => isWordChar c
  | none => false

/-- A match of the pattern `\b<kw>\b` (with `kw` literal, as produced by
`re.escape`) starting at position `i` of `t`: the keyword occurs at `i` and a
word boundary — the two adjacent positions disagree on word-ness — holds at
both ends. -/
def wbMatchAt (kw t : List Char) (i : Nat) : Bool :=
  ((t.drop i).take kw.length == kw) &&
  ((decide (0 < i) && charIsWordAt t (i - 1)) != charIsWordAt t i) &&
  ((decide (0 < i + kw.length) && charIsWordAt t (i + kw.length - 1))
     != charIsWordAt t (i + kw.length))

/-- `re.search` of the pattern `\b<kw>\b` over `t` (`kw` non-empty literal). -/
def wbContains (kw t : List Char) : Bool :=
  !kw.isEmpty && (List.range (t.length + 1)).any (wbMatchAt kw t)

/-- Python's plain substring test `kw in t`. -/
def containsSub (kw t : List Char) : Bool :=
  (List.range (t.length + 1)).any fun i => (t.drop i).take kw.length == kw

/-- The uppercased character list of a string (`raw_text.upper()`). -/
def upText (s : String) : List Char := s.data.map pyToUpper

/-- `extractor.SHOP_RULES` in source (insertion) order. -/
def SHOP_RULES : List (String × List String) :=
  [ ("ShopA", ["SHOP A INC", "Avenue 123", "SHOP A SUPERMARKET"]),
    ("ShopB", ["GRAND MARCHÉ", "TEL: 243", "GRAND MARCHE", "GRAND MARKET"]),
    ("ShopC", ["CARREFOUR", "CARREFOUR MARKET", "CARREFOUR EXPRESS"]),
    ("ShopD", ["SHOPRITE", "SHOPRITE SUPERMARKET", "SHOPRITE STORES"]),
    ("KinMart", ["KINMART", "KIN MART", "KINMART SUPERMARKET", "KINMART EXPRESS"]),
    ("CongoMarket", ["CONGO MARKET", "CONGO MARCHÉ", "CONGO SUPERMARKET"]),
    ("TotalEnergies", ["TOTAL ENERGIES", "TOTAL", "STATION TOTAL", "TOTAL STATION"]),
    ("Engen", ["ENGEN", "ENGEN STATION", "ENGEN SERVICE STATION"]) ]

/-- Whether any keyword of a `SHOP_RULES` entry matches the uppercased text at
word boundaries (`identify_shop`'s inner loop). -/
def shopMatches (t : List Char) (entry : String × List String) : Bool :=
  entry.2.any fun kw => wbContains (upText kw) t

/-- Regular expressions, as needed for the source's phone-number patterns:
empty string, a character class, concatenation, alternation, Kleene star. -/
inductive RE where
  | eps
  | cls (p : Char → Bool)
  | seq (a b : RE)
  | alt (a b : RE)
  | star (a : RE)

/-- Whether `r` accepts the empty string. -/
def RE.nullable : RE → Bool
  | .eps => true
  | .cls _ => false
  | .seq a b => a.nullable && b.nullable
  | .alt a b => a.nullable || b.nullable
  | .star _ => true

/-- Brzozowski derivative of `r` by the character `c`. -/
def RE.deriv : RE → Char → RE
  | .eps, _ => .cls fun _ => false
  | .cls p, c => if p c then .eps else .cls fun _ => false
  | .seq a b, c =>
      if a.nullable then .alt (.seq (a.deriv c) b) (b.deriv c)
      else .seq (a.deriv c) b
  | .alt a b, c => .alt (a.deriv c) (b.deriv c)
  | .star a, c => .seq (a.deriv c) (.star a)

/-- Whether `r` accepts exactly the string `t` (`re.fullmatch`). -/
def reMatch (r : RE) : List Char → Bool
  | [] => r.nullable
  | c :: cs => reMatch (r.deriv c) cs

/-- `re.search`: some substring of `t` is accepted by `r`. -/
def reSearch (r : RE) (t : List Char) : Bool :=
  (List.range (t.length + 1)).any fun i =>
    (List.range (t.length - i + 1)).any fun j => reMatch r ((t.drop i).take j)

/-- A literal string as a regex. -/
def reLit : List Char → RE
  | [] => .eps
  | c :: cs => .seq (.cls fun x => x = c) (reLit cs)

/-- `p?` — optional. -/
def reOpt (a : RE) : RE := .alt .eps a

/-- `\d`. -/
def reDigit : RE := .cls Char.isDigit

/-- `\d` three times — the `\d` repeated-three-times group of the phone
patterns. -/
def reD3 : RE := .seq reDigit (.seq reDigit reDigit)

/-- `[\s\-\.]*` followed by three digits. -/
def reSepD3 : RE := .seq (.star (.cls fun c => isPySpace c || c = '-' || c = '.')) reD3

/-- One phone pattern of `identify_shop` (`extractor.py` 115–119):
`WORD[:\s]*[\+]?243` then three `[\s\-\.]*`-separated digit triples. -/
def phonePattern (word : List Char) : RE :=
  .seq (reLit word)
    (.seq (.star (.cls fun c => c = ':' || isPySpace c))
      (.seq (reOpt (.cls fun c => c = '+'))
        (.seq (reLit "243".data) (.seq reSepD3 (.seq reSepD3 reSepD3)))))

/-- The three phone patterns tried by `identify_shop`. -/
def phone_patterns : List RE :=
  [phonePattern "TEL".data, phonePattern "PHONE".data, phonePattern "TÉL".data]

/-- The city list of `identify_shop` (`extractor.py` 128–131), duplicate
included as in the source. -/
def congolese_cities : List String :=
  ["KINSHASA", "KINSHASA", "LUBUMBASHI", "KANANGA", "KISANGANI",
   "GOMA", "BUKAVU", "MBUJI-MAYI", "TSHIKAPA", "KOLWEZI"]

/-- `ReceiptExtractor.identify_shop` (`extractor.py` 88–139): empty text is
"Unknown"; otherwise the first `SHOP_RULES` entry with a word-boundary keyword
match wins; otherwise a phone pattern or a city substring yields "LocalShop";
otherwise "Unknown". -/
def identify_shop (raw_text : String) : String :=
  if raw_text = "" then "Unknown"
  else
    let t := upText raw_text
    match SHOP_RULES.find? (shopMatches t) with
    | some e => e.1
    | none =>
      if phone_patterns.any fun r => reSearch r t then "LocalShop"
      else if congolese_cities.any fun c => containsSub (upText c) t then "LocalShop"
      else "Unknown"

/-- Truthiness of an optional number in Python (`if d.get(k):`): present and
non-zero. -/
def truthyQ : Option ℚ → Bool
  | none => false
  | some q => q ≠ 0

/-- Truthiness of an optional string in Python: present and non-empty. -/
def truthyS : Option String → Bool
  | none => false
  | some s => s ≠ ""

/-- The characters Python's `re.escape` (3.7+) prefixes with a backslash. -/
def isReSpecial (c : Char) : Bool :=
  c = '(' || c = ')' || c = '[' || c = ']' || c.toNat = 123 || c.toNat = 125 ||
  c = '?' || c = '*' || c = '+' || c = '-' || c = '|' || c = '^' || c = '$' ||
  c = '\\' || c = '.' || c = '&' || c = '~' || c = '#' || c = ' ' || c = '\t' ||
  c = '\n' || c = '\r' || c = '\x0b' || c = '\x0c'

/-- Python's `re.escape`. -/
def reEscape (s : String) : String :=
  String.mk (s.data.foldr (fun c acc =>
    if isReSpecial c then '\\' :: c :: acc else c :: acc) [])

/-- `ReceiptLearner._create_item_regex_pattern` (`learning_engine.py` 286–312).
The function builds a qty/price-dependent `pattern` variable first, but its
`return` statement discards it and always yields this one string. -/
def create_item_regex_pattern (item_name : String) (_item : RawItem) : String :=
  let name := pyStrip item_name
  let escaped_name := reEscape name
  "(" ++ escaped_name ++ ".*?)\\s+(\\d+(?:\\.\\d+)?)?\\s*[xX*]\\s*([0-9,\\.]+)"

/-- `ReceiptLearner._select_best_pattern`: the most frequent pattern; Python's
`max` over an insertion-ordered count dict keeps the first-seen pattern on
ties (replacement only on a strictly greater count). -/
def select_best_pattern (patterns : List String) : String :=
  match patterns with
  | [] => ""
  | p0 :: rest =>
    rest.foldl (fun best p =>
      if patterns.count best < patterns.count p then p else best) p0

/-- `ReceiptLearner._detect_currency_from_samples`: most common
`currency` value (default "CDF") across the Gemini results.  Python iterates
`max` over `set(currencies)` whose tie order is unspecified; no claim under
verification reads the currency, and this embedding resolves ties to the
first-seen value. -/
def detect_currency_from_samples (samples : List RawData) : String :=
  let currencies := samples.map fun s => s.currency.getD "CDF"
  match currencies with
  | [] => "CDF"
  | c0 :: rest =>
    rest.foldl (fun best p =>
      if currencies.count best < currencies.count p then p else best) c0

/-- A shop extraction template as stored in `shop_templates.json`; `none`
models an absent key (the synthesis step strips `None` values). -/
structure ShopTemplate where
  item_pattern : Option String := none
  total_pattern : Option String := none
  subtotal_pattern : Option String := none
  tax_pattern : Option String := none
  date_pattern : Option String := none
  currency : Option String := none
  learned_from_samples : Option Nat := none
  confidence_threshold : Option ℚ := none
  deriving Repr, DecidableEq

/-- One learning sample appended by `learn_from_gemini_correction`
(`learning_engine.py` 76–84).  The `learned_at`, `text_patterns` and
`item_patterns` entries of the source's sample dict are computed and stored
but never read by any code in the repository, and are omitted here. -/
structure LearningSample where
  shop_id : String
  raw_text : String
  gemini_data : RawData
  local_confidence : ℚ
  deriving Repr, DecidableEq

/-- The `ReceiptLearner`'s mutable state: the in-memory `learning_history`
list and the contents of the `shop_templates.json` store (persistence is
modelled as in-memory state, per the spec's store collaborator). -/
structure LearnerState where
  history : List LearningSample := []
  templates : List (String × ShopTemplate) := []
  deriving Repr, DecidableEq

/-- `existing_templates[shop_id] = template` on the insertion-ordered JSON
dict. -/
def setTemplate (ts : List (String × ShopTemplate)) (k : String)
    (v : ShopTemplate) : List (String × ShopTemplate) :=
  if ts.any fun p => p.1 == k then
    ts.map fun p => if p.1 == k then (k, v) else p
  else ts ++ [(k, v)]

/-- Lookup of a shop's template in the store. -/
def lookupTemplate (ts : List (String × ShopTemplate)) (k : String) :
    Option ShopTemplate :=
  (ts.find? fun p => p.1 == k).map (·.2)

/-- `ReceiptLearner.min_learning_samples`. -/
def min_learning_samples : Nat := 3

/-- The samples of one shop (`[s for s in self.learning_history if
s['shop_id'] == shop_id]`). -/
def shopSamples (history : List LearningSample) (shop_id : String) :
    List LearningSample :=
  history.filter fun s => s.shop_id == shop_id

/-- `ReceiptLearner._synthesize_template_from_samples`
(`learning_engine.py` 219–284).  The pattern-menu strings are the source's
raw-string literals character for character (in particular the doubled
backslash of `[0-9,\\.]` that a Python raw string keeps). -/
def synthesize_template_from_samples (samples : List LearningSample) :
    Option ShopTemplate :=
  if samples.isEmpty then none
  else
    let gemini_results := samples.map (·.gemini_data)
    let item_patterns := gemini_results.foldl (fun acc r =>
      acc ++ ((r.items.take 3).filterMap fun it =>
        let name := it.name.getD ""
        if name ≠ "" then some (create_item_regex_pattern name it) else none)) []
    let total_patterns := gemini_results.foldl (fun acc r =>
      if truthyQ r.total then
        acc ++ ["TOTAL[:\\s]*([0-9,\\\\.]+)", "MONTANT[:\\s]*([0-9,\\\\.]+)",
                "SOMME[:\\s]*([0-9,\\\\.]+)"]
      else acc) []
    let subtotal_patterns := gemini_results.foldl (fun acc r =>
      if truthyQ r.subtotal then
        acc ++ ["SOUS.?TOTAL[:\\s]*([0-9,\\\\.]+)", "SUBTOTAL[:\\s]*([0-9,\\\\.]+)"]
      else acc) []
    let tax_patterns := gemini_results.foldl (fun acc r =>
      if truthyQ r.tax then
        acc ++ ["TVA[:\\s]*([0-9,\\\\.]+)", "TAXE[:\\s]*([0-9,\\\\.]+)"]
      else acc) []
    let date_patterns := gemini_results.foldl (fun acc r =>
      if truthyS r.date then
        acc ++ ["(\\d\x7b1,2\x7d[/-]\\d\x7b1,2\x7d[/-]\\d\x7b2,4\x7d)",
                "(\\d\x7b2\x7d/\\d\x7b2\x7d/\\d\x7b4\x7d)"]
      else acc) []
    some
      { item_pattern :=
          if item_patterns.isEmpty then none
          else some (select_best_pattern item_patterns)
        total_pattern :=
          some (if total_patterns.isEmpty then "TOTAL[:\\s]*([0-9,\\\\.]+)"
                else select_best_pattern total_patterns)
        subtotal_pattern :=
          if subtotal_patterns.isEmpty then none
          else some (select_best_pattern subtotal_patterns)
        tax_pattern :=
          if tax_patterns.isEmpty then none
          else some (select_best_pattern tax_patterns)
        date_pattern :=
          some (if date_patterns.isEmpty then
                  "(\\d\x7b1,2\x7d[/-]\\d\x7b1,2\x7d[/-]\\d\x7b2,4\x7d)"
                else select_best_pattern date_patterns)
        currency := some (detect_currency_from_samples gemini_results)
        learned_from_samples := some samples.length
        confidence_threshold := some 0.7 }

/-- `ReceiptLearner._should_generate_template`. -/
def should_generate_template (st : LearnerState) (shop_id : String) : Bool :=
  min_learning_samples ≤ (shopSamples st.history shop_id).length

/-- `ReceiptLearner._generate_shop_template` (`learning_engine.py` 185–217):
re-filters the shop's samples, synthesizes a template and writes it into the
template store; returns whether a template was written. -/
def generate_shop_template (st : LearnerState) (shop_id : String) :
    Bool × LearnerState :=
  let samples := shopSamples st.history shop_id
  if samples.length < min_learning_samples then (false, st)
  else
    match synthesize_template_from_samples samples with
    | some t => (true, { st with templates := setTemplate st.templates shop_id t })
    | none => (false, st)

/-- `ReceiptLearner.learn_from_gemini_correction` (`learning_engine.py`
49–98): reject when `local_confidence >= 0.8` or the correction was not
successful; otherwise append the sample and, when the shop has accumulated
enough samples, generate its template.  Returns (template_updated, new
state). -/
def learn_from_gemini_correction (st : LearnerState) (shop_id raw_text : String)
    (gemini_result : RawData) (local_confidence : ℚ) : Bool × LearnerState :=
  if 0.8 ≤ local_confidence then (false, st)
  else if !(gemini_result.success.getD false) then (false, st)
  else
    let sample : LearningSample :=
      { shop_id := shop_id, raw_text := raw_text,
        gemini_data := gemini_result, local_confidence := local_confidence }
    let st1 : LearnerState := { st with history := st.history ++ [sample] }
    if should_generate_template st1 shop_id then generate_shop_template st1 shop_id
    else (false, st1)

/-- The failure dictionary `extract_items_gemini` returns when the client is
unconfigured or its call raised (`gemini_api.py` 315–337). -/
def gemini_failure_data (err : String) : RawData :=
  { success := some false, error := some err, items := [],
    total := some 0, merchant := some "Unknown" }

/-- `extract_items_gemini` (`gemini_api.py` 304–337).  The Gemini client is an
external collaborator: `none` models an unconfigured client
(`gemini_client is None` / `not GEMINI_AVAILABLE`); a configured client's call
either raises (`.error`) or returns a parsed result dict. -/
def extract_items_gemini
    (client : Option (String → String → Except String RawData))
    (image_path ocr_text : String) : RawData × ℚ :=
  match client with
  | none => (gemini_failure_data "Gemini API not configured", 0)
  | some call =>
    match call image_path ocr_text with
    | .error e => (gemini_failure_data e, 0)
    | .ok result => (result, result.confidence.getD 0.9)

/-- The environment of one `ReceiptProcessor` run: the OCR collaborator
(`extract_text_from_image`, which returns text or raises), the local extractor
result (`ReceiptExtractor.extract_items_local`, whose template application
depends on the `product_normalizer` module absent from the repository sources
and on the external template store), the `GEMINI_AVAILABLE` import flag of
`main.py`, and the outcome of calling `extract_items_gemini` (`.error` models
a raised exception, which `main.py` catches). -/
structure Env where
  ocr : String → Except String String
  localExtract : String → String → RawData
  geminiAvailable : Bool
  geminiCall : String → String → Except String (RawData × ℚ)

/-- The value returned by `ReceiptProcessor.process_receipt`: either the
normalized receipt dict (whose `"success"` key is `True`) or the error dict of
the exception handler (`main.py` 135–141). -/
inductive ProcessingResult where
  | ok (receipt : NormalizedReceipt)
  | failed (error : String)
  deriving Repr, DecidableEq

/-- The `"success"` key of the returned dict. -/
def ProcessingResult.success : ProcessingResult → Bool
  | .ok _ => true
  | .failed _ => false

/-- The `"processing_method"` key of the returned dict. -/
def ProcessingResult.processingMethod : ProcessingResult → String
  | .ok r => r.processing_method
  | .failed _ => "failed"

/-- The `"confidence"` key of the returned dict. -/
def ProcessingResult.confidenceVal : ProcessingResult → ℚ
  | .ok r => r.confidence
  | .failed _ => 0

/-- The `"error"` key of the returned dict (absent on success). -/
def ProcessingResult.errorMsg : ProcessingResult → Option String
  | .ok _ => none
  | .failed e => some e

/-- One run's outcome: the returned dict, the learner state afterwards, and
instrumentation counters for how often the Gemini fallback and
`learn_from_gemini_correction` were invoked during the run. -/
structure RunOutcome where
  result : ProcessingResult
  learner : LearnerState
  geminiCalls : Nat
  learnCalls : Nat
  deriving Repr, DecidableEq

/-- `ReceiptProcessor.process_receipt` (`main.py` 43–141).  Notes kept from
the source: empty/whitespace OCR text raises `ValueError("OCR failed to
extract any text")`, caught by the outer handler; the fallback condition is
`confidence < MIN_CONFIDENCE_THRESHOLD or shop_id == "Unknown"`; a raised
Gemini call is caught and the local result kept; on a successful Gemini result
the local result is replaced wholesale, `confidence` is reassigned to the
Gemini confidence, and that reassigned `confidence` variable is what the
source then passes to `learn_from_gemini_correction` as `local_confidence`. -/
def process_receipt (env : Env) (st : LearnerState) (image_path : String) :
    RunOutcome :=
  match env.ocr image_path with
  | .error e => ⟨.failed e, st, 0, 0⟩
  | .ok raw_text =>
    if pyStrip raw_text = "" then
      ⟨.failed "OCR failed to extract any text", st, 0, 0⟩
    else
      let shop_id := identify_shop raw_text
      let extracted_data := env.localExtract shop_id raw_text
      let confidence := calculate_confidence_score extracted_data
      let needs_fallback :=
        confidence < MIN_CONFIDENCE_THRESHOLD ∨ shop_id = "Unknown"
      if needs_fallback ∧ env.geminiAvailable then
        match env.geminiCall image_path raw_text with
        | .error _ =>
          ⟨.ok (normalize_output extracted_data "local" confidence raw_text),
           st, 1, 0⟩
        | .ok (gemini_data, gemini_confidence) =>
          if gemini_data.success.getD false then
            let confidence2 := gemini_confidence
            let st' := (learn_from_gemini_correction st shop_id raw_text
              gemini_data confidence2).2
            ⟨.ok (normalize_output gemini_data "gemini" confidence2 raw_text),
             st', 1, 1⟩
          else
            ⟨.ok (normalize_output extracted_data "local" confidence raw_text),
             st, 1, 0⟩
      else
        ⟨.ok (normalize_output extracted_data "local" confidence raw_text),
         st, 0, 0⟩

/-- `batch_process_receipts` (`main.py` 224–249): one processor (hence one
threaded learner state) runs over the list; every document contributes one
result.  The source's per-document `try` is vacuous because `process_receipt`
catches its own exceptions. -/
def batch_process_receipts (env : Env) (st : LearnerState)
    (image_paths : List String) : List ProcessingResult × LearnerState :=
  image_paths.foldl (fun acc p =>
    let o := process_receipt env acc.2 p
    (acc.1 ++ [o.result], o.learner)) ([], st)

/-! Concrete fixtures used by witness and counterexample theorems. -/

/-- A local extraction of low quality: unknown merchant, four items of which
two are complete, no total — its confidence score is `2/5 = 0.4`, the
below-threshold local confidence of the spec's end-to-end scenario 3. -/
def lowConfData : RawData :=
  { merchant := some "Unknown",
    items := [{ name := some "Rice", price := some 25000 },
              { name := some "Oil", price := some 12000 },
              { name := some "" }, {}],
    total := some 0 }

/-- Items of a successful Gemini extraction (Gemini items carry
`name`/`price`/`quantity`). -/
def gItems : List RawItem :=
  [{ name := some "Rice 5kg", price := some 25000, quantity := some 1 },
   { name := some "Sugar", price := some 12000, quantity := some 2 }]

/-- A successful Gemini result dict (`success = True`, confidence 0.9). -/
def gData : RawData :=
  { success := some true, merchant := some "XYZ Supermarket",
    currency := some "CDF", items := gItems, total := some 49000,
    confidence := some 0.9 }

/-- An environment in which OCR succeeds on text of an unidentifiable shop,
local extraction yields `lowConfData` (confidence 0.4), and the Gemini
fallback is available and succeeds with confidence 0.9. -/
def c1env : Env :=
  { ocr := fun _ => .ok "XYZ SUPERMARKET RECEIPT",
    localExtract := fun _ _ => lowConfData,
    geminiAvailable := true,
    geminiCall := fun _ _ => .ok (gData, 0.9) }

/-- Same environment but with the Gemini module unavailable
(`GEMINI_AVAILABLE = False` in `main.py`). -/
def envNoGemini : Env :=
  { c1env with geminiAvailable := false }

/-- Same environment but the Gemini call raises. -/
def envGeminiRaises : Env :=
  { c1env with
    geminiCall := fun _ _ => .error "Network error calling Gemini API: timeout" }

/-- Same environment but the Gemini call returns an unsuccessful result (as
`extract_items_gemini` does when unconfigured or failing). -/
def envGeminiFails : Env :=
  { c1env with
    geminiCall := fun _ _ => .ok (gemini_failure_data "Gemini API error: 500", 0) }

/-- An environment whose OCR collaborator raises. -/
def envOcrRaises : Env :=
  { c1env with ocr := fun _ => .error "Failed to read image file: missing.jpg" }

/-- An environment whose OCR returns whitespace-only text. -/
def envOcrBlank : Env :=
  { c1env with ocr := fun _ => .ok "  \n " }

/-- One learning sample for shop "XYZ" captured at local confidence 0.4. -/
def sample1 : LearningSample :=
  { shop_id := "XYZ", raw_text := "T", gemini_data := gData,
    local_confidence := 0.4 }

/-- A learner state already holding two samples for shop "XYZ". -/
def st2 : LearnerState := { history := [sample1, sample1] }

/-- The all-defaults item dictionary (every key absent). -/
def emptyItem : RawItem := {}

/-- The all-defaults extraction dictionary (every key absent). -/
def emptyData : RawData := {}

/-- The incoming item of the normalization witness: padded name, quantity 2,
price 5, no line total. -/
def c3item : RawItem := { name := some " Apple ", qty := some 2, price := some 5 }

/-- Input data of the normalization witness: one item, no document total. -/
def c3data : RawData := { items := [c3item] }

/-! Helper lemmas. -/

/-- The completeness credit is nonnegative. -/
theorem itemCompletenessCredit_nonneg (items : List RawItem) :
    0 ≤ itemCompletenessCredit items := by
  unfold itemCompletenessCredit
  split_ifs with h
  · positivity
  · exact le_refl 0

/-- The completeness credit is at most its weight 0.2. -/
theorem itemCompletenessCredit_le (items : List RawItem) :
    itemCompletenessCredit items ≤ 0.2 := by
  unfold itemCompletenessCredit
  split_ifs with h
  · have hn : (0 : ℚ) < (items.length : ℚ) := by
      exact_mod_cast Nat.pos_of_ne_zero h
    have hc : ((items.countP isCompleteItem : ℚ)) ≤ (items.length : ℚ) := by
      exact_mod_cast List.countP_le_length _
    have hr : (items.countP isCompleteItem : ℚ) / (items.length : ℚ) ≤ 1 :=
      (div_le_one hn).mpr hc
    nlinarith
  · norm_num

/-- Closed form of the score: the four factor credits summed (the accumulated
`factors` denominator is `0.3 + 0.3 + 0.2 + 0.2 = 1`). -/
theorem calc_score_eq (d : RawData) :
    calculate_confidence_score d =
      (if d.merchant ≠ some "Unknown" then (0.3 : ℚ) else 0)
      + (if MIN_ITEMS_THRESHOLD ≤ d.items.length then (0.3 : ℚ)
          else if 0 < d.items.length then 0.15 else 0)
      + (if 0 < d.total.getD 0 then (0.2 : ℚ) else 0)
      + itemCompletenessCredit d.items := by
  simp only [calculate_confidence_score]
  norm_num
  split_ifs <;> ring

/-- C5: `calculate_confidence_score` is a pure function whose value is the
weighted sum — normalized by the (constant) sum 1.0 of the applicable
weights — of: 0.3 if the merchant is not "Unknown"; 0.3 for ≥ 3 items, half
credit 0.15 for 1–2 items, 0 for none; 0.2 for a strictly positive total; and
0.2 × (items with non-empty name and positive price) / (total items), 0 when
there are no items; and the value always lies in [0, 1]. -/
theorem C5_confidence_score_formula (d : RawData) :
    calculate_confidence_score d =
      (if d.merchant ≠ some "Unknown" then (0.3 : ℚ) else 0)
      + (if 3 ≤ d.items.length then (0.3 : ℚ)
          else if 0 < d.items.length then 0.15 else 0)
      + (if 0 < d.total.getD 0 then (0.2 : ℚ) else 0)
      + (if d.items.length ≠ 0 then
           0.2 * ((d.items.countP isCompleteItem : ℚ) / (d.items.length : ℚ))
         else 0)
    ∧ 0 ≤ calculate_confidence_score d ∧ calculate_confidence_score d ≤ 1 := by
  refine ⟨?_, ?_, ?_⟩
  · rw [calc_score_eq]; rfl
  · rw [calc_score_eq]
    have h := itemCompletenessCredit_nonneg d.items
    split_ifs <;> linarith
  · rw [calc_score_eq]
    have h := itemCompletenessCredit_le d.items
    split_ifs <;> linarith

/-- C8: the scorer is monotone in the claimed senses: giving an extraction
with no positive total a strictly positive total never decreases its score,
and appending an item with empty name and zero price never increases the
item-completeness contribution. -/
theorem C8_scorer_monotonicity :
    (∀ (d : RawData) (t : ℚ), d.total.getD 0 ≤ 0 → 0 < t →
      calculate_confidence_score d
        ≤ calculate_confidence_score { d with total := some t })
  ∧ (∀ (d : RawData) (it : RawItem),
      it.name.getD "" = "" → it.price.getD 0 = 0 →
      itemCompletenessCredit (d.items ++ [it])
        ≤ itemCompletenessCredit d.items) := by
  constructor
  · intro d t hd ht
    rw [calc_score_eq, calc_score_eq]
    have e1 : ({ d with total := some t } : RawData).merchant = d.merchant := rfl
    have e2 : ({ d with total := some t } : RawData).items = d.items := rfl
    have e3 : ({ d with total := some t } : RawData).total = some t := rfl
    rw [e1, e2, e3]
    have h3 : ¬ (0 < d.total.getD 0) := not_lt.mpr hd
    rw [if_neg h3, Option.getD_some, if_pos ht]
    linarith
  · intro d it hn hp
    have hbad : isCompleteItem it = false := by
      simp [isCompleteItem, hn]
    unfold itemCompletenessCredit
    rcases Nat.eq_zero_or_pos d.items.length with h0 | hpos
    · have hnil : d.items = [] := List.length_eq_zero.mp h0
      simp [hnil, List.countP_cons, hbad]
    · have hne : d.items.length ≠ 0 := hpos.ne'
      have hne2 : (d.items ++ [it]).length ≠ 0 := by simp
      rw [if_pos hne2, if_pos hne]
      have hcnt : (d.items ++ [it]).countP isCompleteItem
          = d.items.countP isCompleteItem := by
        simp [List.countP_append, List.countP_cons, hbad]
      have hlen : ((d.items ++ [it]).length : ℚ) = (d.items.length : ℚ) + 1 := by
        simp
      rw [hcnt, hlen]
      have hq : (0 : ℚ) < (d.items.length : ℚ) := by exact_mod_cast hpos
      have hc0 : (0 : ℚ) ≤ (d.items.countP isCompleteItem : ℚ) := by positivity
      have hdiv : (d.items.countP isCompleteItem : ℚ) / ((d.items.length : ℚ) + 1)
          ≤ (d.items.countP isCompleteItem : ℚ) / (d.items.length : ℚ) := by
        rw [div_le_div_iff₀ (by linarith) hq]
        nlinarith
      nlinarith


/-- Witness for C8 at concrete inputs: the empty extraction gains score from
total 1, and appending the all-default (empty-name, zero-price) item to an
empty item list does not increase the completeness credit. -/
theorem C8_scorer_monotonicity_witness :
    calculate_confidence_score emptyData
      ≤ calculate_confidence_score { emptyData with total := some 1 }
  ∧ itemCompletenessCredit (emptyData.items ++ [emptyItem])
      ≤ itemCompletenessCredit emptyData.items := by
  constructor
  · exact C8_scorer_monotonicity.1 emptyData 1 (by simp [emptyData]) (by norm_num)
  · exact C8_scorer_monotonicity.2 emptyData emptyItem rfl rfl

/-- C3: output normalization enforces, for every input dictionary, method
string and confidence: retained items have a non-empty name and positive
price; a retained item's total is recomputed as qty × price whenever the
incoming line total was zero or off by more than 0.01; and a zero incoming
document total is replaced by the sum of the retained items' totals whenever
at least one item is retained. -/
theorem C3_normalize_output_invariants
    (data : RawData) (method : String) (conf : ℚ) (raw : String) :
    (∀ c ∈ (normalize_output data method conf raw).items,
        c.name ≠ "" ∧ 0 < c.price)
  ∧ (∀ it ∈ data.items,
        cleanItem it ∈ (normalize_output data method conf raw).items →
        (it.total.getD 0 = 0
          ∨ |it.total.getD 0 - it.qty.getD 1 * it.price.getD 0| > 0.01) →
        (cleanItem it).total = it.qty.getD 1 * it.price.getD 0)
  ∧ (data.total.getD 0 = 0 →
        (normalize_output data method conf raw).items ≠ [] →
        (normalize_output data method conf raw).total
          = ((normalize_output data method conf raw).items.map (·.total)).sum) := by
  refine ⟨?_, ?_, ?_⟩
  · intro c hc
    simp only [normalize_output, List.mem_filter] at hc
    have hk := hc.2
    simp only [keepItem, Bool.and_eq_true, ne_eq, decide_eq_true_eq] at hk
    exact ⟨by simpa using hk.1, hk.2⟩
  · intro it _ _ hcond
    show (if it.total.getD 0 = 0
            ∨ |it.total.getD 0 - it.qty.getD 1 * it.price.getD 0| > 0.01
          then it.qty.getD 1 * it.price.getD 0 else it.total.getD 0)
        = it.qty.getD 1 * it.price.getD 0
    exact if_pos hcond
  · intro h0 hne
    simp only [normalize_output] at hne ⊢
    rw [if_pos ⟨h0, hne⟩]

/-- Witness for C3 at a concrete input: one item with padded name, quantity
2, price 5 and no line total; no document total. -/
theorem C3_normalize_output_witness :
    ((cleanItem c3item).name ≠ "" ∧ 0 < (cleanItem c3item).price)
  ∧ (cleanItem c3item).total = c3item.qty.getD 1 * c3item.price.getD 0
  ∧ (normalize_output c3data "local" 0.5 "raw").total
      = ((normalize_output c3data "local" 0.5 "raw").items.map (·.total)).sum := by
  have h := C3_normalize_output_invariants c3data "local" 0.5 "raw"
  have hk : keepItem (cleanItem c3item) = true := by decide
  have hitems : (normalize_output c3data "local" 0.5 "raw").items
      = [cleanItem c3item] := by
    simp [normalize_output, c3data, List.filter, hk]
  have hmem : cleanItem c3item ∈ (normalize_output c3data "local" 0.5 "raw").items := by
    rw [hitems]; exact List.mem_singleton_self _
  exact ⟨h.1 (cleanItem c3item) hmem,
         h.2.1 c3item (by simp [c3data]) hmem (Or.inl (by simp [c3item])),
         h.2.2 (by simp [c3data]) (by rw [hitems]; simp)⟩

/-- Decomposition of a successful `find?`: the found element splits the list,
everything before it fails the predicate. -/
theorem find?_eq_some_split {α : Type} (p : α → Bool) :
    ∀ (l : List α) (x : α), l.find? p = some x →
      ∃ pre post, l = pre ++ x :: post ∧ (∀ y ∈ pre, p y = false) ∧ p x = true := by
  intro l
  induction l with
  | nil => intro x h; simp [List.find?] at h
  | cons a as ih =>
    intro x h
    cases hp : p a with
    | true =>
      rw [List.find?_cons_of_pos _ hp] at h
      obtain rfl : a = x := by injection h
      exact ⟨[], as, by simp, by simp, hp⟩
    | false =>
      rw [List.find?_cons_of_neg _ (by simp [hp])] at h
      obtain ⟨pre, post, hsplit, hpre, hpx⟩ := ih x h
      refine ⟨a :: pre, post, by simp [hsplit], ?_, hpx⟩
      intro y hy
      rcases List.mem_cons.mp hy with rfl | hy'
      · exact hp
      · exact hpre y hy'

/-- C7 (amended at the "in particular" instance): `identify_shop` is the total
function that uppercases its input and returns the first shop of the ordered
rules table any of whose keywords matches at word boundaries (table order is
the tie-break); a text in which "SHOPRITE SUPERMARKET" occurs at word
boundaries and which matches no keyword of an earlier table entry resolves to
"ShopD"; when no shop keyword matches, a phone pattern or city substring
yields "LocalShop", otherwise "Unknown". -/
theorem C7_identify_shop_amended :
    (∀ raw : String, SHOP_RULES.any (shopMatches (upText raw)) = true →
      ∃ pre e post, SHOP_RULES = pre ++ e :: post
        ∧ (∀ e' ∈ pre, shopMatches (upText raw) e' = false)
        ∧ shopMatches (upText raw) e = true
        ∧ identify_shop raw = e.1)
  ∧ (∀ raw : String, (∀ e ∈ SHOP_RULES, shopMatches (upText raw) e = false) →
      ((phone_patterns.any fun r => reSearch r (upText raw)) = true
        ∨ (congolese_cities.any fun c => containsSub (upText c) (upText raw)) = true) →
      identify_shop raw = "LocalShop")
  ∧ (∀ raw : String, (∀ e ∈ SHOP_RULES, shopMatches (upText raw) e = false) →
      (phone_patterns.any fun r => reSearch r (upText raw)) = false →
      (congolese_cities.any fun c => containsSub (upText c) (upText raw)) = false →
      identify_shop raw = "Unknown")
  ∧ (∀ raw : String,
      wbContains (upText "SHOPRITE SUPERMARKET") (upText raw) = true →
      (∀ e ∈ SHOP_RULES.take 3, shopMatches (upText raw) e = false) →
      identify_shop raw = "ShopD") := by
  refine ⟨?_, ?_, ?_, ?_⟩
  · intro raw h
    have hne : raw ≠ "" := by
      rintro rfl
      have hfalse : SHOP_RULES.any (shopMatches (upText "")) = false := by decide
      rw [hfalse] at h
      exact absurd h (by simp)
    have hex : ∃ x ∈ SHOP_RULES, shopMatches (upText raw) x = true :=
      List.any_eq_true.mp h
    obtain ⟨x, hx⟩ := Option.isSome_iff_exists.mp
      (List.find?_isSome.mpr (by exact_mod_cast hex))
    obtain ⟨pre, post, hsplit, hpre, hpx⟩ := find?_eq_some_split _ _ _ hx
    refine ⟨pre, x, post, hsplit, hpre, hpx, ?_⟩
    unfold identify_shop
    rw [if_neg hne]
    simp [hx]
  · intro raw hall hor
    have hne : raw ≠ "" := by
      rintro rfl
      rcases hor with h | h
      · have : (phone_patterns.any fun r => reSearch r (upText "")) = false := by decide
        rw [this] at h; exact absurd h (by simp)
      · have : (congolese_cities.any fun c => containsSub (upText c) (upText "")) = false := by
          decide
        rw [this] at h; exact absurd h (by simp)
    have hnone : SHOP_RULES.find? (shopMatches (upText raw)) = none := by
      apply List.find?_eq_none.mpr
      intro x hx
      simp [hall x hx]
    unfold identify_shop
    rw [if_neg hne]
    rcases hor with h | h
    · simp [hnone, h]
    · cases hph : (phone_patterns.any fun r => reSearch r (upText raw)) <;>
        simp [hnone, hph, h]
  · intro raw hall hph hcity
    by_cases hne : raw = ""
    · subst hne; rfl
    · have hnone : SHOP_RULES.find? (shopMatches (upText raw)) = none := by
        apply List.find?_eq_none.mpr
        intro x hx
        simp [hall x hx]
      unfold identify_shop
      rw [if_neg hne]
      simp [hnone, hph, hcity]
  · intro raw hwb htake
    have hne : raw ≠ "" := by
      rintro rfl
      revert hwb
      decide
    have h1 := htake ("ShopA", ["SHOP A INC", "Avenue 123", "SHOP A SUPERMARKET"])
      (by decide)
    have h2 := htake ("ShopB", ["GRAND MARCHÉ", "TEL: 243", "GRAND MARCHE", "GRAND MARKET"])
      (by decide)
    have h3 := htake ("ShopC", ["CARREFOUR", "CARREFOUR MARKET", "CARREFOUR EXPRESS"])
      (by decide)
    have h4 : shopMatches (upText raw)
        ("ShopD", ["SHOPRITE", "SHOPRITE SUPERMARKET", "SHOPRITE STORES"]) = true := by
      apply List.any_eq_true.mpr
      exact ⟨"SHOPRITE SUPERMARKET", by decide, hwb⟩
    have hfind : SHOP_RULES.find? (shopMatches (upText raw))
        = some ("ShopD", ["SHOPRITE", "SHOPRITE SUPERMARKET", "SHOPRITE STORES"]) := by
      simp [SHOP_RULES, List.find?_cons, h1, h2, h3, h4]
    unfold identify_shop
    rw [if_neg hne]
    simp [hfind]

/-- Counterexample to C7 as stated: the text "CARREFOUR SHOPRITE SUPERMARKET"
contains the literal phrase "SHOPRITE SUPERMARKET", and "SHOPRITE SUPERMARKET"
is a keyword mapped to shop "ShopD", yet `identify_shop` resolves the text to
"ShopC" (the earlier table entry "CARREFOUR" wins), not to the shop mapped to
that keyword. -/
theorem C7_identify_shop_counterexample :
    containsSub (upText "SHOPRITE SUPERMARKET")
        (upText "CARREFOUR SHOPRITE SUPERMARKET") = true
  ∧ ("ShopD", ["SHOPRITE", "SHOPRITE SUPERMARKET", "SHOPRITE STORES"]) ∈ SHOP_RULES
  ∧ identify_shop "CARREFOUR SHOPRITE SUPERMARKET" = "ShopC"
  ∧ "ShopC" ≠ "ShopD" := by
  refine ⟨by decide, by decide, by decide, by decide⟩

/-- Witness for C7 (amended) at concrete inputs: a keyword match resolved by
table order, a city-only text resolved to "LocalShop", an unmatched text
resolved to "Unknown", and a word-boundary "SHOPRITE SUPERMARKET" occurrence
with no earlier-shop keyword resolved to "ShopD". -/
theorem C7_identify_shop_witness :
    (∃ pre e post, SHOP_RULES = pre ++ e :: post
       ∧ (∀ e' ∈ pre, shopMatches (upText "GRAND MARKET KIN") e' = false)
       ∧ shopMatches (upText "GRAND MARKET KIN") e = true
       ∧ identify_shop "GRAND MARKET KIN" = e.1)
  ∧ identify_shop "MAGASIN KINSHASA" = "LocalShop"
  ∧ identify_shop "HELLO WORLD" = "Unknown"
  ∧ identify_shop "SHOPRITE SUPERMARKET LUBUMBASHI BRANCH" = "ShopD" := by
  refine ⟨C7_identify_shop_amended.1 "GRAND MARKET KIN" (by decide),
          C7_identify_shop_amended.2.1 "MAGASIN KINSHASA" (by decide)
            (Or.inr (by decide)),
          C7_identify_shop_amended.2.2.1 "HELLO WORLD" (by decide) (by decide)
            (by decide),
          C7_identify_shop_amended.2.2.2 "SHOPRITE SUPERMARKET LUBUMBASHI BRANCH"
            (by decide) (by decide)⟩

/-- C10: any text in which the standalone word "TOTAL" occurs at word
boundaries and which matches no keyword of the six shops listed before
"TotalEnergies" in the rules table is identified as "TotalEnergies" — never
"Unknown", so the shop-identity branch of the AI-fallback trigger cannot fire
for it. -/
theorem C10_total_word_means_totalenergies (raw : String)
    (hwb : wbContains (upText "TOTAL") (upText raw) = true)
    (htake : ∀ e ∈ SHOP_RULES.take 6, shopMatches (upText raw) e = false) :
    identify_shop raw = "TotalEnergies" ∧ identify_shop raw ≠ "Unknown" := by
  have hne : raw ≠ "" := by
    rintro rfl
    revert hwb
    decide
  have h1 := htake ("ShopA", ["SHOP A INC", "Avenue 123", "SHOP A SUPERMARKET"])
    (by decide)
  have h2 := htake ("ShopB", ["GRAND MARCHÉ", "TEL: 243", "GRAND MARCHE", "GRAND MARKET"])
    (by decide)
  have h3 := htake ("ShopC", ["CARREFOUR", "CARREFOUR MARKET", "CARREFOUR EXPRESS"])
    (by decide)
  have h4 := htake ("ShopD", ["SHOPRITE", "SHOPRITE SUPERMARKET", "SHOPRITE STORES"])
    (by decide)
  have h5 := htake ("KinMart", ["KINMART", "KIN MART", "KINMART SUPERMARKET", "KINMART EXPRESS"])
    (by decide)
  have h6 := htake ("CongoMarket", ["CONGO MARKET", "CONGO MARCHÉ", "CONGO SUPERMARKET"])
    (by decide)
  have h7 : shopMatches (upText raw)
      ("TotalEnergies", ["TOTAL ENERGIES", "TOTAL", "STATION TOTAL", "TOTAL STATION"])
        = true := by
    apply List.any_eq_true.mpr
    exact ⟨"TOTAL", by decide, hwb⟩
  have hfind : SHOP_RULES.find? (shopMatches (upText raw))
      = some ("TotalEnergies", ["TOTAL ENERGIES", "TOTAL", "STATION TOTAL", "TOTAL STATION"]) := by
    simp [SHOP_RULES, List.find?_cons, h1, h2, h3, h4, h5, h6, h7]
  have hmain : identify_shop raw = "TotalEnergies" := by
    unfold identify_shop
    rw [if_neg hne]
    simp [hfind]
  exact ⟨hmain, by rw [hmain]; decide⟩

/-- Witness for C10: the ordinary amount line "TOTAL: 12,500". -/
theorem C10_total_word_witness :
    identify_shop "TOTAL: 12,500" = "TotalEnergies"
  ∧ identify_shop "TOTAL: 12,500" ≠ "Unknown" :=
  C10_total_word_means_totalenergies "TOTAL: 12,500" (by decide) (by decide)

/-- Branch lemma: an OCR exception is caught and surfaced as the error dict. -/
theorem process_receipt_ocr_error (env : Env) (st : LearnerState) (p e : String)
    (hocr : env.ocr p = .error e) :
    process_receipt env st p = ⟨.failed e, st, 0, 0⟩ := by
  simp only [process_receipt, hocr]

/-- Branch lemma: whitespace-only OCR text raises
`ValueError("OCR failed to extract any text")`, caught by the handler. -/
theorem process_receipt_blank (env : Env) (st : LearnerState) (p raw : String)
    (hocr : env.ocr p = .ok raw) (htrim : pyStrip raw = "") :
    process_receipt env st p
      = ⟨.failed "OCR failed to extract any text", st, 0, 0⟩ := by
  simp only [process_receipt, hocr]
  rw [if_pos htrim]

/-- Branch lemma: when the fallback is not both warranted and available, the
local result is normalized and returned. -/
theorem process_receipt_local_branch (env : Env) (st : LearnerState)
    (p raw : String) (hocr : env.ocr p = .ok raw) (htrim : pyStrip raw ≠ "")
    (hnofb : ¬ ((calculate_confidence_score (env.localExtract (identify_shop raw) raw)
                   < MIN_CONFIDENCE_THRESHOLD ∨ identify_shop raw = "Unknown")
                ∧ env.geminiAvailable = true)) :
    process_receipt env st p
      = ⟨.ok (normalize_output (env.localExtract (identify_shop raw) raw) "local"
            (calculate_confidence_score (env.localExtract (identify_shop raw) raw)) raw),
         st, 0, 0⟩ := by
  simp only [process_receipt, hocr]
  rw [if_neg htrim, if_neg hnofb]

/-- Branch lemma: a raised Gemini call is caught and the local result kept. -/
theorem process_receipt_gemini_error (env : Env) (st : LearnerState)
    (p raw e : String) (hocr : env.ocr p = .ok raw) (htrim : pyStrip raw ≠ "")
    (hfb : calculate_confidence_score (env.localExtract (identify_shop raw) raw)
             < MIN_CONFIDENCE_THRESHOLD ∨ identify_shop raw = "Unknown")
    (havail : env.geminiAvailable = true)
    (hcall : env.geminiCall p raw = .error e) :
    process_receipt env st p
      = ⟨.ok (normalize_output (env.localExtract (identify_shop raw) raw) "local"
            (calculate_confidence_score (env.localExtract (identify_shop raw) raw)) raw),
         st, 1, 0⟩ := by
  simp only [process_receipt, hocr]
  rw [if_neg htrim, if_pos ⟨hfb, havail⟩]
  simp only [hcall]

/-- Branch lemma: a Gemini result without `success=True` is discarded and the
local result kept. -/
theorem process_receipt_gemini_nosuccess (env : Env) (st : LearnerState)
    (p raw : String) (g : RawData) (gc : ℚ)
    (hocr : env.ocr p = .ok raw) (htrim : pyStrip raw ≠ "")
    (hfb : calculate_confidence_score (env.localExtract (identify_shop raw) raw)
             < MIN_CONFIDENCE_THRESHOLD ∨ identify_shop raw = "Unknown")
    (havail : env.geminiAvailable = true)
    (hcall : env.geminiCall p raw = .ok (g, gc))
    (hsucc : g.success.getD false = false) :
    process_receipt env st p
      = ⟨.ok (normalize_output (env.localExtract (identify_shop raw) raw) "local"
            (calculate_confidence_score (env.localExtract (identify_shop raw) raw)) raw),
         st, 1, 0⟩ := by
  simp only [process_receipt, hocr]
  rw [if_neg htrim, if_pos ⟨hfb, havail⟩]
  simp only [hcall]
  rw [if_neg (by simp [hsucc])]

/-- Branch lemma: a successful Gemini result replaces the local result
wholesale, the reassigned confidence is the Gemini one, and the learner is
invoked once with that reassigned confidence. -/
theorem process_receipt_gemini_success (env : Env) (st : LearnerState)
    (p raw : String) (g : RawData) (gc : ℚ)
    (hocr : env.ocr p = .ok raw) (htrim : pyStrip raw ≠ "")
    (hfb : calculate_confidence_score (env.localExtract (identify_shop raw) raw)
             < MIN_CONFIDENCE_THRESHOLD ∨ identify_shop raw = "Unknown")
    (havail : env.geminiAvailable = true)
    (hcall : env.geminiCall p raw = .ok (g, gc))
    (hsucc : g.success.getD false = true) :
    process_receipt env st p
      = ⟨.ok (normalize_output g "gemini" gc raw),
         (learn_from_gemini_correction st (identify_shop raw) raw g gc).2, 1, 1⟩ := by
  simp only [process_receipt, hocr]
  rw [if_neg htrim, if_pos ⟨hfb, havail⟩]
  simp only [hcall]
  rw [if_pos hsucc]

/-- The fixture local extraction scores 0.4. -/
theorem score_lowConfData : calculate_confidence_score lowConfData = 2/5 := by
  rw [calc_score_eq]
  unfold itemCompletenessCredit
  norm_num [show lowConfData.merchant = some "Unknown" from rfl,
    show lowConfData.total = some 0 from rfl,
    show lowConfData.items.countP isCompleteItem = 2 from rfl,
    show lowConfData.items.length = 4 from rfl,
    MIN_ITEMS_THRESHOLD]

/-- A learner call whose `local_confidence` argument is 0.9 is rejected
outright (`local_confidence >= 0.8`). -/
theorem learn_reject_high (st : LearnerState) (s r : String) (g : RawData) :
    learn_from_gemini_correction st s r g 0.9 = (false, st) := by
  unfold learn_from_gemini_correction
  rw [if_pos (by norm_num : (0.8 : ℚ) ≤ 0.9)]

/-- Full evaluation of the fixture run: the Gemini result replaces the local
one, and the learner — invoked with the reassigned confidence 0.9 — records
nothing. -/
theorem run_c1env :
    process_receipt c1env ({} : LearnerState) "r.jpg"
      = ⟨.ok (normalize_output gData "gemini" 0.9 "XYZ SUPERMARKET RECEIPT"),
         ({} : LearnerState), 1, 1⟩ := by
  have hshop : identify_shop "XYZ SUPERMARKET RECEIPT" = "Unknown" := by decide
  have h := process_receipt_gemini_success c1env {} "r.jpg"
    "XYZ SUPERMARKET RECEIPT" gData 0.9 rfl (by decide) (Or.inr hshop) rfl rfl rfl
  rw [h, hshop, learn_reject_high]

/-- C1 (amended: the string the code stores in `processing_method` for the AI
path is "gemini" — the spec's name for this method is "ai"): when the local
confidence is below the acceptance threshold and the Gemini fallback returns
success=True, the run produces the normalization of the Gemini result alone
(local result replaced wholesale), with method "gemini", the confidence taken
from the AI response (default 0.9 when the response carries none), and exactly
one invocation of `learn_from_gemini_correction`. -/
theorem C1_ai_replaces_local (env : Env) (st : LearnerState)
    (p raw : String) (g : RawData) (gc : ℚ)
    (hocr : env.ocr p = .ok raw) (htrim : pyStrip raw ≠ "")
    (hconf : calculate_confidence_score (env.localExtract (identify_shop raw) raw)
               < MIN_CONFIDENCE_THRESHOLD)
    (havail : env.geminiAvailable = true)
    (hcall : env.geminiCall p raw = .ok (g, gc))
    (hsucc : g.success.getD false = true) :
    (process_receipt env st p).result = .ok (normalize_output g "gemini" gc raw)
    ∧ (process_receipt env st p).result.processingMethod = "gemini"
    ∧ (process_receipt env st p).result.confidenceVal = gc
    ∧ (process_receipt env st p).learnCalls = 1
    ∧ (process_receipt env st p).learner
        = (learn_from_gemini_correction st (identify_shop raw) raw g gc).2
    ∧ (∀ (call : String → String → Except String RawData) (q t : String)
          (r : RawData), call q t = .ok r →
        (extract_items_gemini (some call) q t).2 = r.confidence.getD 0.9) := by
  have h := process_receipt_gemini_success env st p raw g gc hocr htrim
    (Or.inl hconf) havail hcall hsucc
  rw [h]
  refine ⟨rfl, rfl, rfl, rfl, rfl, ?_⟩
  intro call q t r hr
  simp [extract_items_gemini, hr]

/-- Counterexample to C1 as stated: in the claimed scenario the produced
result's `processing_method` is the string "gemini", not "ai". -/
theorem C1_method_label_counterexample :
    (process_receipt c1env ({} : LearnerState) "r.jpg").result.processingMethod
        = "gemini"
  ∧ (process_receipt c1env ({} : LearnerState) "r.jpg").result.processingMethod
        ≠ "ai" := by
  rw [run_c1env]
  exact ⟨rfl, by decide⟩

/-- Witness for C1 (amended) at the fixture environment: local confidence 0.4,
Gemini succeeds at confidence 0.9. -/
theorem C1_ai_replaces_local_witness :
    (process_receipt c1env ({} : LearnerState) "r.jpg").result
        = .ok (normalize_output gData "gemini" 0.9 "XYZ SUPERMARKET RECEIPT")
    ∧ (process_receipt c1env ({} : LearnerState) "r.jpg").result.processingMethod
        = "gemini"
    ∧ (process_receipt c1env ({} : LearnerState) "r.jpg").result.confidenceVal
        = 0.9
    ∧ (process_receipt c1env ({} : LearnerState) "r.jpg").learnCalls = 1
    ∧ (process_receipt c1env ({} : LearnerState) "r.jpg").learner
        = (learn_from_gemini_correction ({} : LearnerState)
            (identify_shop "XYZ SUPERMARKET RECEIPT") "XYZ SUPERMARKET RECEIPT"
            gData 0.9).2
    ∧ (∀ (call : String → String → Except String RawData) (q t : String)
          (r : RawData), call q t = .ok r →
        (extract_items_gemini (some call) q t).2 = r.confidence.getD 0.9) := by
  exact C1_ai_replaces_local c1env {} "r.jpg" "XYZ SUPERMARKET RECEIPT" gData 0.9
    rfl (by decide)
    (by rw [show c1env.localExtract
          (identify_shop "XYZ SUPERMARKET RECEIPT") "XYZ SUPERMARKET RECEIPT"
          = lowConfData from rfl, score_lowConfData]
        norm_num [MIN_CONFIDENCE_THRESHOLD])
    rfl rfl rfl

/-- C2 (code bug): in the pipeline run of the fixture — local confidence
0.4 < 0.8, Gemini success — the learner is invoked exactly once yet records no
sample, because `main.py` passes the reassigned `confidence` variable (the
Gemini confidence, 0.9) as the learner's `local_confidence`; had the actual
local confidence 0.4 been passed, as the learner's own docstring and the
repository's `test_learning.py` do, the sample would have been appended. -/
theorem C2_learning_starved_by_confidence_reassignment :
    calculate_confidence_score lowConfData = 2/5
  ∧ (2/5 : ℚ) < 0.8
  ∧ gData.success.getD false = true
  ∧ (process_receipt c1env ({} : LearnerState) "r.jpg").learnCalls = 1
  ∧ (process_receipt c1env ({} : LearnerState) "r.jpg").learner.history = []
  ∧ (learn_from_gemini_correction ({} : LearnerState) "Unknown"
        "XYZ SUPERMARKET RECEIPT" gData (2/5)).2.history
      = [⟨"Unknown", "XYZ SUPERMARKET RECEIPT", gData, 2/5⟩] := by
  refine ⟨score_lowConfData, by norm_num, rfl, ?_, ?_, ?_⟩
  · rw [run_c1env]
  · rw [run_c1env]
  · unfold learn_from_gemini_correction
    rw [if_neg (by norm_num : ¬ ((0.8 : ℚ) ≤ 2/5)), if_neg (by decide)]
    rw [if_neg (by decide)]
    rfl

/-- C4: with the Gemini module importable, the fallback call happens iff
(local confidence < 0.85) or the shop is "Unknown"; and whenever the fallback
is warranted but the module is unavailable, the call raises, or the call
returns an unsuccessful result (as `extract_items_gemini` does when the client
is unconfigured or failing — last conjunct), the local extraction is accepted
and the run completes successfully. -/
theorem C4_fallback_trigger_and_soft_failure (env : Env) (st : LearnerState)
    (p raw : String) (hocr : env.ocr p = .ok raw) (htrim : pyStrip raw ≠ "") :
    (env.geminiAvailable = true →
      ((process_receipt env st p).geminiCalls = 1
        ↔ (calculate_confidence_score (env.localExtract (identify_shop raw) raw)
             < MIN_CONFIDENCE_THRESHOLD ∨ identify_shop raw = "Unknown")))
  ∧ (env.geminiAvailable = false →
      (process_receipt env st p).result
        = .ok (normalize_output (env.localExtract (identify_shop raw) raw) "local"
            (calculate_confidence_score (env.localExtract (identify_shop raw) raw)) raw)
      ∧ (process_receipt env st p).result.success = true)
  ∧ (∀ e : String,
      (calculate_confidence_score (env.localExtract (identify_shop raw) raw)
          < MIN_CONFIDENCE_THRESHOLD ∨ identify_shop raw = "Unknown") →
      env.geminiAvailable = true → env.geminiCall p raw = .error e →
      (process_receipt env st p).result
        = .ok (normalize_output (env.localExtract (identify_shop raw) raw) "local"
            (calculate_confidence_score (env.localExtract (identify_shop raw) raw)) raw)
      ∧ (process_receipt env st p).result.success = true)
  ∧ (∀ (g : RawData) (gc : ℚ),
      (calculate_confidence_score (env.localExtract (identify_shop raw) raw)
          < MIN_CONFIDENCE_THRESHOLD ∨ identify_shop raw = "Unknown") →
      env.geminiAvailable = true → env.geminiCall p raw = .ok (g, gc) →
      g.success.getD false = false →
      (process_receipt env st p).result
        = .ok (normalize_output (env.localExtract (identify_shop raw) raw) "local"
            (calculate_confidence_score (env.localExtract (identify_shop raw) raw)) raw)
      ∧ (process_receipt env st p).result.success = true)
  ∧ ((extract_items_gemini none p raw).1.success.getD false = false
      ∧ (extract_items_gemini none p raw).2 = 0) := by
  refine ⟨?_, ?_, ?_, ?_, rfl, rfl⟩
  · intro havail
    constructor
    · intro h1
      by_cases hfb : calculate_confidence_score
          (env.localExtract (identify_shop raw) raw) < MIN_CONFIDENCE_THRESHOLD
          ∨ identify_shop raw = "Unknown"
      · exact hfb
      · rw [process_receipt_local_branch env st p raw hocr htrim
          (fun hc => hfb hc.1)] at h1
        exact absurd h1 (by simp)
    · intro hfb
      rcases hc : env.geminiCall p raw with e | gpair
      · rw [process_receipt_gemini_error env st p raw e hocr htrim hfb havail hc]
      · obtain ⟨g, gc⟩ := gpair
        cases hs : g.success.getD false
        · rw [process_receipt_gemini_nosuccess env st p raw g gc hocr htrim hfb
            havail hc hs]
        · rw [process_receipt_gemini_success env st p raw g gc hocr htrim hfb
            havail hc hs]
  · intro hnavail
    rw [process_receipt_local_branch env st p raw hocr htrim
      (fun hc => by rw [hnavail] at hc; exact absurd hc.2 (by simp))]
    exact ⟨rfl, rfl⟩
  · intro e hfb havail hcall
    rw [process_receipt_gemini_error env st p raw e hocr htrim hfb havail hcall]
    exact ⟨rfl, rfl⟩
  · intro g gc hfb havail hcall hsucc
    rw [process_receipt_gemini_nosuccess env st p raw g gc hocr htrim hfb havail
      hcall hsucc]
    exact ⟨rfl, rfl⟩

/-- Witness for C4 at the fixture environments: fallback invoked (iff holds)
when available; local result accepted when the module is unavailable, when the
call raises, and when it returns an unsuccessful result; unconfigured client
yields a non-success result at confidence 0. -/
theorem C4_fallback_witness :
    ((process_receipt c1env ({} : LearnerState) "r.jpg").geminiCalls = 1
      ↔ (calculate_confidence_score (c1env.localExtract
            (identify_shop "XYZ SUPERMARKET RECEIPT") "XYZ SUPERMARKET RECEIPT")
            < MIN_CONFIDENCE_THRESHOLD
          ∨ identify_shop "XYZ SUPERMARKET RECEIPT" = "Unknown"))
  ∧ ((process_receipt envNoGemini ({} : LearnerState) "r.jpg").result
        = .ok (normalize_output (envNoGemini.localExtract
              (identify_shop "XYZ SUPERMARKET RECEIPT") "XYZ SUPERMARKET RECEIPT")
            "local"
            (calculate_confidence_score (envNoGemini.localExtract
              (identify_shop "XYZ SUPERMARKET RECEIPT") "XYZ SUPERMARKET RECEIPT"))
            "XYZ SUPERMARKET RECEIPT")
      ∧ (process_receipt envNoGemini ({} : LearnerState) "r.jpg").result.success
          = true)
  ∧ ((process_receipt envGeminiRaises ({} : LearnerState) "r.jpg").result
        = .ok (normalize_output (envGeminiRaises.localExtract
              (identify_shop "XYZ SUPERMARKET RECEIPT") "XYZ SUPERMARKET RECEIPT")
            "local"
            (calculate_confidence_score (envGeminiRaises.localExtract
              (identify_shop "XYZ SUPERMARKET RECEIPT") "XYZ SUPERMARKET RECEIPT"))
            "XYZ SUPERMARKET RECEIPT")
      ∧ (process_receipt envGeminiRaises ({} : LearnerState) "r.jpg").result.success
          = true)
  ∧ ((process_receipt envGeminiFails ({} : LearnerState) "r.jpg").result
        = .ok (normalize_output (envGeminiFails.localExtract
              (identify_shop "XYZ SUPERMARKET RECEIPT") "XYZ SUPERMARKET RECEIPT")
            "local"
            (calculate_confidence_score (envGeminiFails.localExtract
              (identify_shop "XYZ SUPERMARKET RECEIPT") "XYZ SUPERMARKET RECEIPT"))
            "XYZ SUPERMARKET RECEIPT")
      ∧ (process_receipt envGeminiFails ({} : LearnerState) "r.jpg").result.success
          = true)
  ∧ ((extract_items_gemini none "r.jpg" "XYZ SUPERMARKET RECEIPT").1.success.getD
        false = false
      ∧ (extract_items_gemini none "r.jpg" "XYZ SUPERMARKET RECEIPT").2 = 0) := by
  have h1 := C4_fallback_trigger_and_soft_failure c1env {} "r.jpg"
    "XYZ SUPERMARKET RECEIPT" rfl (by decide)
  have h2 := C4_fallback_trigger_and_soft_failure envNoGemini {} "r.jpg"
    "XYZ SUPERMARKET RECEIPT" rfl (by decide)
  have h3 := C4_fallback_trigger_and_soft_failure envGeminiRaises {} "r.jpg"
    "XYZ SUPERMARKET RECEIPT" rfl (by decide)
  have h4 := C4_fallback_trigger_and_soft_failure envGeminiFails {} "r.jpg"
    "XYZ SUPERMARKET RECEIPT" rfl (by decide)
  exact ⟨h1.1 rfl,
         h2.2.1 rfl,
         h3.2.2.1 "Network error calling Gemini API: timeout"
           (Or.inr (by decide)) rfl rfl,
         h4.2.2.2.1 (gemini_failure_data "Gemini API error: 500") 0
           (Or.inr (by decide)) rfl rfl rfl,
         h1.2.2.2.2⟩

/-- Accumulator lemma for the batch fold. -/
theorem batch_fold_acc (env : Env) :
    ∀ (ps : List String) (acc : List ProcessingResult) (st : LearnerState),
      (ps.foldl (fun a p =>
          ((a.1 ++ [(process_receipt env a.2 p).result],
            (process_receipt env a.2 p).learner)
            : List ProcessingResult × LearnerState))
        (acc, st))
      = (acc ++ (ps.foldl (fun a p =>
          ((a.1 ++ [(process_receipt env a.2 p).result],
            (process_receipt env a.2 p).learner)
            : List ProcessingResult × LearnerState))
        ([], st)).1,
        (ps.foldl (fun a p =>
          ((a.1 ++ [(process_receipt env a.2 p).result],
            (process_receipt env a.2 p).learner)
            : List ProcessingResult × LearnerState))
        ([], st)).2) := by
  intro ps
  induction ps with
  | nil => intro acc st; simp
  | cons q qs ih =>
    intro acc st
    simp only [List.foldl_cons]
    rw [ih (acc ++ [(process_receipt env st q).result])
        (process_receipt env st q).learner,
      ih ([] ++ [(process_receipt env st q).result])
        (process_receipt env st q).learner]
    simp [List.append_assoc]

/-- The batch processes documents head first, threading the learner state. -/
theorem batch_cons (env : Env) (st : LearnerState) (p : String)
    (ps : List String) :
    batch_process_receipts env st (p :: ps)
      = ((process_receipt env st p).result
           :: (batch_process_receipts env (process_receipt env st p).learner ps).1,
         (batch_process_receipts env (process_receipt env st p).learner ps).2) := by
  simp only [batch_process_receipts, List.foldl_cons]
  rw [batch_fold_acc env ps ([] ++ [(process_receipt env st p).result])
    (process_receipt env st p).learner]
  simp

/-- The batch yields one result per document. -/
theorem batch_length (env : Env) :
    ∀ (ps : List String) (st : LearnerState),
      (batch_process_receipts env st ps).1.length = ps.length := by
  intro ps
  induction ps with
  | nil => intro st; rfl
  | cons q qs ih =>
    intro st
    rw [batch_cons]
    simp [ih]

/-- C9: `process_receipt` never raises — a raised OCR call is surfaced as the
error dict with that message, empty/whitespace OCR text yields success=false,
the fixed human-readable error string and method "failed"; and the batch
yields one result per document, each document's result obtained from its own
`process_receipt` run on the threaded state (one failure cannot abort the
siblings). -/
theorem C9_failures_contained (env : Env) (st : LearnerState) (p : String) :
    (∀ e : String, env.ocr p = .error e →
      process_receipt env st p = ⟨.failed e, st, 0, 0⟩
      ∧ (process_receipt env st p).result.success = false
      ∧ (process_receipt env st p).result.errorMsg = some e)
  ∧ (∀ raw : String, env.ocr p = .ok raw → pyStrip raw = "" →
      (process_receipt env st p).result.success = false
      ∧ (process_receipt env st p).result.errorMsg
          = some "OCR failed to extract any text"
      ∧ (process_receipt env st p).result.processingMethod = "failed")
  ∧ (∀ ps : List String,
      (batch_process_receipts env st ps).1.length = ps.length)
  ∧ (∀ (q : String) (qs : List String),
      (batch_process_receipts env st (q :: qs)).1
        = (process_receipt env st q).result
            :: (batch_process_receipts env (process_receipt env st q).learner qs).1) := by
  refine ⟨?_, ?_, ?_, ?_⟩
  · intro e hocr
    rw [process_receipt_ocr_error env st p e hocr]
    exact ⟨rfl, rfl, rfl⟩
  · intro raw hocr htrim
    rw [process_receipt_blank env st p raw hocr htrim]
    exact ⟨rfl, rfl, rfl⟩
  · intro ps
    exact batch_length env ps st
  · intro q qs
    rw [batch_cons]

/-- Witness for C9: an environment whose OCR raises, one whose OCR yields
whitespace-only text, and a two-document batch over the latter. -/
theorem C9_failures_witness :
    (process_receipt envOcrRaises ({} : LearnerState) "x.jpg"
        = ⟨.failed "Failed to read image file: missing.jpg",
           ({} : LearnerState), 0, 0⟩
      ∧ (process_receipt envOcrRaises ({} : LearnerState) "x.jpg").result.success
          = false
      ∧ (process_receipt envOcrRaises ({} : LearnerState) "x.jpg").result.errorMsg
          = some "Failed to read image file: missing.jpg")
  ∧ ((process_receipt envOcrBlank ({} : LearnerState) "x.jpg").result.success
        = false
      ∧ (process_receipt envOcrBlank ({} : LearnerState) "x.jpg").result.errorMsg
          = some "OCR failed to extract any text"
      ∧ (process_receipt envOcrBlank ({} : LearnerState) "x.jpg").result.processingMethod
          = "failed")
  ∧ (batch_process_receipts envOcrBlank ({} : LearnerState) ["a.jpg", "b.jpg"]).1.length
      = (["a.jpg", "b.jpg"] : List String).length := by
  have h1 := C9_failures_contained envOcrRaises ({} : LearnerState) "x.jpg"
  have h2 := C9_failures_contained envOcrBlank ({} : LearnerState) "x.jpg"
  exact ⟨h1.1 "Failed to read image file: missing.jpg" rfl,
         h2.2.1 "  \n " rfl (by decide),
         h2.2.2.1 ["a.jpg", "b.jpg"]⟩

/-- Appending a sample for shop `k` extends that shop's sample list. -/
theorem shopSamples_append (h : List LearningSample) (s : LearningSample)
    (k : String) (hs : s.shop_id = k) :
    shopSamples (h ++ [s]) k = shopSamples h k ++ [s] := by
  unfold shopSamples
  rw [List.filter_append]
  simp [hs]

/-- `find?` over the updated-in-place store hits the new value. -/
theorem find?_map_set (k : String) (v : ShopTemplate) :
    ∀ ts : List (String × ShopTemplate), (ts.any fun p => p.1 == k) = true →
      ((ts.map fun p => if p.1 == k then (k, v) else p).find?
          fun p => p.1 == k) = some (k, v) := by
  intro ts
  induction ts with
  | nil => intro h; simp at h
  | cons a as ih =>
    intro h
    by_cases ha : (a.1 == k) = true
    · rw [List.map_cons, if_pos ha, List.find?_cons]
      simp
    · have haf : (a.1 == k) = false := by
        cases hb : (a.1 == k)
        · rfl
        · exact absurd hb ha
      have h' : (as.any fun p => p.1 == k) = true := by
        simp only [List.any_cons] at h
        rcases Bool.or_eq_true_iff.mp h with hh | hh
        · exact absurd hh ha
        · exact hh
      rw [List.map_cons, if_neg ha, List.find?_cons, haf]
      exact ih h'

/-- `find?` over the appended store hits the new entry when no existing entry
has the key. -/
theorem find?_append_new (k : String) (v : ShopTemplate) :
    ∀ ts : List (String × ShopTemplate), (ts.any fun p => p.1 == k) = false →
      ((ts ++ [(k, v)]).find? fun p => p.1 == k) = some (k, v) := by
  intro ts
  induction ts with
  | nil => intro _; simp [List.find?]
  | cons a as ih =>
    intro h
    simp only [List.any_cons] at h
    have haf : (a.1 == k) = false := by
      cases hb : (a.1 == k)
      · rfl
      · rw [hb, Bool.true_or] at h
        exact absurd h (by simp)
    have h' : (as.any fun p => p.1 == k) = false := by
      cases hb : (as.any fun p => p.1 == k)
      · rfl
      · rw [hb, Bool.or_true] at h
        exact absurd h (by simp)
    rw [List.cons_append, List.find?_cons, haf]
    exact ih h'

/-- Looking up the key just written by `setTemplate` returns the written
template. -/
theorem lookupTemplate_setTemplate (ts : List (String × ShopTemplate))
    (k : String) (v : ShopTemplate) :
    lookupTemplate (setTemplate ts k v) k = some v := by
  unfold setTemplate lookupTemplate
  by_cases h : (ts.any fun p => p.1 == k) = true
  · rw [if_pos h, find?_map_set k v ts h]
    rfl
  · have hf : (ts.any fun p => p.1 == k) = false := by
      cases hb : (ts.any fun p => p.1 == k)
      · rfl
      · exact absurd hb h
    rw [if_neg h, find?_append_new k v ts hf]
    rfl

/-- An accepted correction reduces `learn_from_gemini_correction` to: append
the sample, then synthesize iff the shop's sample count (after the append)
reaches the minimum. -/
theorem learn_append (st : LearnerState) (shop_id raw_text : String)
    (g : RawData) (conf : ℚ) (hconf : conf < 0.8)
    (hsucc : g.success.getD false = true) :
    learn_from_gemini_correction st shop_id raw_text g conf
      = (if 3 ≤ (shopSamples st.history shop_id).length + 1
         then generate_shop_template
            { st with history := st.history ++ [⟨shop_id, raw_text, g, conf⟩] }
            shop_id
         else (false,
            { st with history := st.history ++ [⟨shop_id, raw_text, g, conf⟩] })) := by
  unfold learn_from_gemini_correction
  rw [if_neg (not_le.mpr hconf), if_neg (by simp [hsucc])]
  by_cases hcond : 3 ≤ (shopSamples st.history shop_id).length + 1
  · have hg : should_generate_template
        { st with history := st.history ++ [⟨shop_id, raw_text, g, conf⟩] }
        shop_id = true := by
      unfold should_generate_template
      apply decide_eq_true
      show min_learning_samples
        ≤ (shopSamples (st.history ++ [⟨shop_id, raw_text, g, conf⟩]) shop_id).length
      rw [shopSamples_append _ _ _ rfl]
      simpa [min_learning_samples, List.length_append] using hcond
    rw [if_pos hg, if_pos hcond]
  · have hg : should_generate_template
        { st with history := st.history ++ [⟨shop_id, raw_text, g, conf⟩] }
        shop_id = false := by
      unfold should_generate_template
      apply decide_eq_false
      show ¬ (min_learning_samples
        ≤ (shopSamples (st.history ++ [⟨shop_id, raw_text, g, conf⟩]) shop_id).length)
      rw [shopSamples_append _ _ _ rfl]
      simp only [min_learning_samples, List.length_append, List.length_singleton]
      omega
    rw [if_neg (by simp [hg]), if_neg hcond]

/-- C6: while fewer than 3 samples exist for a shop the learning call returns
false and writes no template; when the appended sample is exactly the 3rd, the
call returns true and a learned template for that shop — carrying the learned
provenance marker (`learned_from_samples = 3`) and the lower acceptance
threshold 0.7 — exists afterwards. -/
theorem C6_template_synthesis_threshold (st : LearnerState)
    (shop_id raw_text : String) (g : RawData) (conf : ℚ)
    (hconf : conf < 0.8) (hsucc : g.success.getD false = true) :
    ((shopSamples st.history shop_id).length + 1 < 3 →
      (learn_from_gemini_correction st shop_id raw_text g conf).1 = false
      ∧ (learn_from_gemini_correction st shop_id raw_text g conf).2.templates
          = st.templates
      ∧ (learn_from_gemini_correction st shop_id raw_text g conf).2.history
          = st.history ++ [⟨shop_id, raw_text, g, conf⟩])
  ∧ ((shopSamples st.history shop_id).length + 1 = 3 →
      (learn_from_gemini_correction st shop_id raw_text g conf).1 = true
      ∧ (lookupTemplate
            (learn_from_gemini_correction st shop_id raw_text g conf).2.templates
            shop_id).map
          (fun t => (t.confidence_threshold, t.learned_from_samples))
        = some (some 0.7, some 3)) := by
  constructor
  · intro hlt
    rw [learn_append st shop_id raw_text g conf hconf hsucc, if_neg (by omega)]
    exact ⟨rfl, rfl, rfl⟩
  · intro heq
    rw [learn_append st shop_id raw_text g conf hconf hsucc, if_pos (by omega)]
    have hss2 : shopSamples (st.history ++ [⟨shop_id, raw_text, g, conf⟩]) shop_id
        = shopSamples st.history shop_id ++ [⟨shop_id, raw_text, g, conf⟩] :=
      shopSamples_append _ _ _ rfl
    have hlen : (shopSamples st.history shop_id
        ++ [(⟨shop_id, raw_text, g, conf⟩ : LearningSample)]).length = 3 := by
      simp only [List.length_append, List.length_singleton]
      omega
    simp [generate_shop_template, synthesize_template_from_samples, hss2, hlen,
      min_learning_samples, lookupTemplate_setTemplate]

/-- Witness for C6: from an empty learner state the 1st sample for shop "XYZ"
has no effect; from a state already holding two samples, the appended 3rd
produces the learned template with threshold 0.7. -/
theorem C6_template_synthesis_witness :
    ((learn_from_gemini_correction ({} : LearnerState) "XYZ" "T" gData (2/5)).1
        = false
      ∧ (learn_from_gemini_correction ({} : LearnerState) "XYZ" "T" gData (2/5)).2.templates
          = ({} : LearnerState).templates
      ∧ (learn_from_gemini_correction ({} : LearnerState) "XYZ" "T" gData (2/5)).2.history
          = ({} : LearnerState).history ++ [⟨"XYZ", "T", gData, 2/5⟩])
  ∧ ((learn_from_gemini_correction st2 "XYZ" "T" gData (2/5)).1 = true
      ∧ (lookupTemplate
            (learn_from_gemini_correction st2 "XYZ" "T" gData (2/5)).2.templates
            "XYZ").map
          (fun t => (t.confidence_threshold, t.learned_from_samples))
        = some (some 0.7, some 3)) := by
  have h1 := C6_template_synthesis_threshold ({} : LearnerState) "XYZ" "T" gData
    (2/5) (by norm_num) rfl
  have h2 := C6_template_synthesis_threshold st2 "XYZ" "T" gData
    (2/5) (by norm_num) rfl
  exact ⟨h1.1 (by decide), h2.2 (by decide)⟩
